import Mathlib

/-!
Shallow embedding of the weather web application (app.py) and proofs of the
specified properties.  Floats of the source are modelled as rationals,
timestamps as natural-number ticks, outbound HTTP calls as functions supplied
by an environment record, and a Python exception escaping a handler as a
serverError outcome (HTTP 500).
-/

namespace WeatherApp

/-- Wall-clock date and time, the components of a Python datetime value. -/
structure DateTime where
  year : Nat
  month : Nat
  day : Nat
  hour : Nat
  minute : Nat
  second : Nat
deriving DecidableEq, Repr

/-- Zero-padded two-digit rendering, as strftime produces for months, days,
hours, minutes and seconds. -/
def pad2 (n : Nat) : String :=
  if n < 10 then "0" ++ toString n else toString n

/-- Zero-padded four-digit rendering, as strftime produces for the year. -/
def pad4 (n : Nat) : String :=
  if n < 10 then "000" ++ toString n
  else if n < 100 then "00" ++ toString n
  else if n < 1000 then "0" ++ toString n
  else toString n

/-- record.date.strftime with format YYYY-MM-DD HH:MM:SS, used by export_data. -/
def strftimeYmdHMS (d : DateTime) : String :=
  pad4 d.year ++ "-" ++ pad2 d.month ++ "-" ++ pad2 d.day ++ " "
    ++ pad2 d.hour ++ ":" ++ pad2 d.minute ++ ":" ++ pad2 d.second

/-- record.date.isoformat, used by the records-list route. -/
def isoformat (d : DateTime) : String :=
  pad4 d.year ++ "-" ++ pad2 d.month ++ "-" ++ pad2 d.day ++ "T"
    ++ pad2 d.hour ++ ":" ++ pad2 d.minute ++ ":" ++ pad2 d.second

/-- One row of the WeatherRecord table (class WeatherRecord in app.py). -/
structure WeatherRecord where
  id : Nat
  location : String
  latitude : Option ℚ
  longitude : Option ℚ
  date : DateTime
  temperature : ℚ
  description : String
  humidity : ℚ
  wind_speed : ℚ
  created_at : Nat
deriving DecidableEq, Repr

/-- The ordering used by WeatherRecord.query.order_by(created_at.desc()):
a record comes before another when its created_at is at least as large. -/
def createdDesc (a b : WeatherRecord) : Prop :=
  b.created_at ≤ a.created_at

instance : DecidableRel createdDesc :=
  fun a b => Nat.decLe b.created_at a.created_at

instance : IsTotal WeatherRecord createdDesc :=
  ⟨fun a b => Nat.le_total b.created_at a.created_at⟩

instance : IsTrans WeatherRecord createdDesc :=
  ⟨fun _ _ _ hab hbc => Nat.le_trans hbc hab⟩

/-- The record list as returned by order_by(created_at.desc()).all(). -/
def orderByCreatedAtDesc (store : List WeatherRecord) : List WeatherRecord :=
  List.insertionSort createdDesc store

/-- One element of the JSON array produced by the records-list route. -/
structure RecordJson where
  id : Nat
  location : String
  date : String
  temperature : ℚ
  description : String
  humidity : ℚ
  wind_speed : ℚ
deriving DecidableEq, Repr

/-- The per-record dictionary built by the records-list route. -/
def recordJson (r : WeatherRecord) : RecordJson :=
  { id := r.id
    location := r.location
    date := isoformat r.date
    temperature := r.temperature
    description := r.description
    humidity := r.humidity
    wind_speed := r.wind_speed }

/-- GET /api/records: all records ordered by created_at descending, serialized. -/
def get_records (store : List WeatherRecord) : List RecordJson :=
  (orderByCreatedAtDesc store).map recordJson

/-- The JSON body of a PUT /api/records/id request: each key may be absent. -/
structure UpdatePatch where
  location : Option String
  temperature : Option ℚ
  description : Option String
deriving DecidableEq, Repr

/-- The field assignments of update_record: each field is overwritten exactly
when its key is present in the request body. -/
def applyPatch (data : UpdatePatch) (record : WeatherRecord) : WeatherRecord :=
  { record with
    location := data.location.getD record.location
    temperature := data.temperature.getD record.temperature
    description := data.description.getD record.description }

/-- Outcome of a single-row database route: 200 or 404 via get_or_404. -/
inductive DbOutcome where
  | ok
  | notFound
deriving DecidableEq, Repr

/-- PUT /api/records/id: get_or_404, then apply the present fields, commit. -/
def update_record (store : List WeatherRecord) (id : Nat) (data : UpdatePatch) :
    DbOutcome × List WeatherRecord :=
  if store.any fun r => r.id == id then
    (.ok, store.map fun r => if r.id == id then applyPatch data r else r)
  else
    (.notFound, store)

/-- DELETE /api/records/id: get_or_404, then session.delete, commit. -/
def delete_record (store : List WeatherRecord) (id : Nat) :
    DbOutcome × List WeatherRecord :=
  if store.any fun r => r.id == id then
    (.ok, store.filter fun r => !(r.id == id))
  else
    (.notFound, store)

/-- A JSON scalar appearing in an export row: a string or a number. -/
inductive JVal where
  | s (v : String)
  | q (v : ℚ)
deriving DecidableEq, Repr

/-- The per-record dictionary built at the top of export_data, key order and
key spelling exactly as in the source. -/
def exportRow (record : WeatherRecord) : List (String × JVal) :=
  [("Location", JVal.s record.location),
   ("Date", JVal.s (strftimeYmdHMS record.date)),
   ("Temperature (°C)", JVal.q record.temperature),
   ("Description", JVal.s record.description),
   ("Humidity (%)", JVal.q record.humidity),
   ("Wind Speed (m/s)", JVal.q record.wind_speed)]

/-- Outcome of GET /api/export/format.  serverError models an uncaught Python
exception reaching Flask (HTTP 500); the export_data route has no try block. -/
inductive ExportResult where
  | jsonOut (rows : List (List (String × JVal)))
  | csvOut (columns : List String) (rows : List (List JVal))
  | pdfOut (tableData : List (List JVal))
  | badRequest (error : String)
  | serverError (error : String)
deriving DecidableEq, Repr

/-- GET /api/export/format.  The pdf branch evaluates data[0].keys() before
checking that data is nonempty, so an empty store raises IndexError there. -/
def export_data (store : List WeatherRecord) (format : String) : ExportResult :=
  let data := (orderByCreatedAtDesc store).map exportRow
  if format = "json" then
    .jsonOut data
  else if format = "csv" then
    .csvOut (match data with | [] => [] | r0 :: _ => r0.map Prod.fst)
            (data.map fun row => row.map Prod.snd)
  else if format = "pdf" then
    match data with
    | [] => .serverError "list index out of range"
    | r0 :: _ =>
        .pdfOut ((r0.map Prod.fst).map JVal.s
                  :: data.map fun row => row.map Prod.snd)
  else
    .badRequest "Invalid format"

/-- The current-conditions payload, with the fields get_weather reads:
main.temp, main.humidity, the description of each element of the weather
array, and wind.speed. -/
structure CurrentWeather where
  temp : ℚ
  humidity : ℚ
  descriptions : List String
  wind_speed : ℚ
deriving DecidableEq, Repr

/-- Startup configuration: the required OpenWeather key and the optional
Google Maps key. -/
structure Config where
  openWeatherApiKey : String
  googleMapsApiKey : Option String

/-- The external world: the geocoder and the HTTP responses keyed by request
URL.  An error value models a transport or parse exception. -/
structure Env where
  geocode : String → Option (ℚ × ℚ)
  httpCurrent : String → Except String CurrentWeather
  httpForecast : String → Except String String
  httpPlaces : String → Except String (Option (List String))

/-- get_coordinates: the geocoder first match as (latitude, longitude), or
(None, None) when there is no match. -/
def get_coordinates (geocode : String → Option (ℚ × ℚ)) (location : String) :
    Option ℚ × Option ℚ :=
  match geocode location with
  | some (lat, lon) => (some lat, some lon)
  | none => (none, none)

/-- The URL built by get_weather_data. -/
def currentUrl (apiKey : String) (lat lon : ℚ) : String :=
  "http://api.openweathermap.org/data/2.5/weather?lat=" ++ toString lat
    ++ "&lon=" ++ toString lon ++ "&appid=" ++ apiKey ++ "&units=metric"

/-- get_weather_data: one GET to the current-weather endpoint. -/
def get_weather_data (http : String → Except String CurrentWeather)
    (apiKey : String) (lat lon : ℚ) : Except String CurrentWeather :=
  http (currentUrl apiKey lat lon)

/-- The URL built by get_forecast_data.  The days parameter of that function
never appears in it. -/
def forecastUrl (apiKey : String) (lat lon : ℚ) : String :=
  "http://api.openweathermap.org/data/2.5/forecast?lat=" ++ toString lat
    ++ "&lon=" ++ toString lon ++ "&appid=" ++ apiKey ++ "&units=metric"

/-- get_forecast_data: one GET to the forecast endpoint.  Its days argument
(default 5) is accepted and ignored, exactly as in the source. -/
def get_forecast_data (http : String → Except String String) (apiKey : String)
    (lat lon : ℚ) (days : Int := 5) : Except String String :=
  http (forecastUrl apiKey lat lon)

/-- The URL built by get_google_maps_data. -/
def placesUrl (key : String) (lat lon : ℚ) : String :=
  "https://maps.googleapis.com/maps/api/place/nearbysearch/json?location="
    ++ toString lat ++ "," ++ toString lon ++ "&radius=5000&key=" ++ key

/-- Python list slicing l[:c]: for a negative bound, count from the end. -/
def pySliceTo (l : List α) (c : Int) : List α :=
  if 0 ≤ c then l.take c.toNat else l.take (l.length - (-c).toNat)

/-- get_google_maps_data: None without a configured key (a Python falsy check,
so the empty string also counts as unconfigured); otherwise the first count
entries of the results field, or None when that field is absent. -/
def get_google_maps_data (key : Option String)
    (http : String → Except String (Option (List String)))
    (lat lon : ℚ) (count : Int) : Except String (Option (List String)) :=
  match key with
  | none => .ok none
  | some k =>
    if k = "" then .ok none
    else
      match http (placesUrl k lat lon) with
      | .error e => .error e
      | .ok (some results) => .ok (some (pySliceTo results count))
      | .ok none => .ok none

/-- The parsed JSON body of a POST /api/weather request; each key may be
absent. -/
structure WeatherRequest where
  location : Option String
  forecastDays : Option Int
  placesCount : Option Int

/-- Response of POST /api/weather. -/
inductive WeatherResponse where
  | badRequest (error : String)
  | notFound (error : String)
  | serverError (error : String)
  | ok (current : CurrentWeather) (forecast : String)
      (places : Option (List String))
deriving DecidableEq, Repr

/-- POST /api/weather.  nextId is the id the database assigns to a new row,
now the value of datetime.utcnow() for the date column, ticks the created_at
clock.  The geocode gate reproduces the Python truthiness test
(if not lat or not lon): None or a coordinate equal to 0.0 yields the 404.
The final match reproduces the weather[0] subscript, which raises IndexError
inside the try block when the weather array is empty. -/
def get_weather (cfg : Config) (env : Env) (nextId : Nat) (now : DateTime)
    (ticks : Nat) (store : List WeatherRecord) (req : WeatherRequest) :
    WeatherResponse × List WeatherRecord :=
  let forecast_days : Int := req.forecastDays.getD 5
  let places_count : Int := req.placesCount.getD 5
  match req.location with
  | none => (.badRequest "Location is required", store)
  | some location =>
    if location = "" then (.badRequest "Location is required", store)
    else
      match get_coordinates env.geocode location with
      | (some lat, some lon) =>
        if lat = 0 ∨ lon = 0 then (.notFound "Could not find location", store)
        else
          match get_weather_data env.httpCurrent cfg.openWeatherApiKey lat lon with
          | .error e => (.serverError e, store)
          | .ok current_weather =>
            match get_forecast_data env.httpForecast cfg.openWeatherApiKey
                lat lon forecast_days with
            | .error e => (.serverError e, store)
            | .ok forecast =>
              match get_google_maps_data cfg.googleMapsApiKey env.httpPlaces
                  lat lon places_count with
              | .error e => (.serverError e, store)
              | .ok places =>
                match current_weather.descriptions with
                | [] => (.serverError "list index out of range", store)
                | d :: _ =>
                  (.ok current_weather forecast places,
                   store ++ [{ id := nextId
                               location := location
                               latitude := some lat
                               longitude := some lon
                               date := now
                               temperature := current_weather.temp
                               description := d
                               humidity := current_weather.humidity
                               wind_speed := current_weather.wind_speed
                               created_at := ticks }])
      | _ => (.notFound "Could not find location", store)

/-- A concrete stored record used to instantiate theorems. -/
def sampleRecord : WeatherRecord :=
  { id := 1
    location := "Paris"
    latitude := some (4885/100)
    longitude := some (235/100)
    date := { year := 2026, month := 1, day := 2, hour := 3, minute := 4, second := 5 }
    temperature := 182/10
    description := "clear sky"
    humidity := 60
    wind_speed := 31/10
    created_at := 100 }

/-- A concrete timestamp used to instantiate theorems. -/
def epoch : DateTime :=
  { year := 1970, month := 1, day := 1, hour := 0, minute := 0, second := 0 }

/-- Configuration with no Google Maps credential. -/
def cfg0 : Config :=
  { openWeatherApiKey := "test-key", googleMapsApiKey := none }

/-- Configuration with a Google Maps credential. -/
def cfgMaps : Config :=
  { openWeatherApiKey := "test-key", googleMapsApiKey := some "maps-key" }

/-- An environment whose geocoder resolves Paris and whose weather calls
succeed. -/
def envParis : Env :=
  { geocode := fun s => if s = "Paris" then some (4885/100, 235/100) else none
    httpCurrent := fun _ =>
      .ok { temp := 182/10, humidity := 60, descriptions := ["clear sky"],
            wind_speed := 31/10 }
    httpForecast := fun _ => .ok "forecast-payload"
    httpPlaces := fun _ => .ok (some ["cafe", "museum", "park"]) }

/-- An environment whose geocoder resolves every query to a point on the
equator (latitude 0.0). -/
def envEquator : Env :=
  { geocode := fun _ => some (0, 7)
    httpCurrent := fun _ =>
      .ok { temp := 25, humidity := 70, descriptions := ["sunny"],
            wind_speed := 3 }
    httpForecast := fun _ => .ok "forecast-payload"
    httpPlaces := fun _ => .ok none }

/-- C5: the list operation returns all records of the store, serialized, and
ordered by created_at descending (newest first), for every store contents:
its output is the serialization of a permutation of the store that is sorted
for the created_at-descending order, with no record dropped or added. -/
theorem get_records_sorted_desc (store : List WeatherRecord) :
    get_records store = (orderByCreatedAtDesc store).map recordJson
    ∧ (orderByCreatedAtDesc store).Perm store
    ∧ List.Sorted createdDesc (orderByCreatedAtDesc store) :=
  ⟨rfl, List.perm_insertionSort createdDesc store,
    List.sorted_insertionSort createdDesc store⟩

/-- C4: a partial update changes only the supplied fields.  The patched record
keeps id, latitude, longitude, date, humidity, wind_speed and created_at in
every case; each of location, temperature and description is kept whenever its
key is absent; a patch carrying only a description changes only that field;
and update_record leaves every record with a different id in the store. -/
theorem update_record_frame (r : WeatherRecord) (p : UpdatePatch) :
    ((applyPatch p r).id = r.id
      ∧ (applyPatch p r).latitude = r.latitude
      ∧ (applyPatch p r).longitude = r.longitude
      ∧ (applyPatch p r).date = r.date
      ∧ (applyPatch p r).humidity = r.humidity
      ∧ (applyPatch p r).wind_speed = r.wind_speed
      ∧ (applyPatch p r).created_at = r.created_at)
    ∧ (p.location = none → (applyPatch p r).location = r.location)
    ∧ (p.temperature = none → (applyPatch p r).temperature = r.temperature)
    ∧ (p.description = none → (applyPatch p r).description = r.description)
    ∧ (∀ X : String,
        applyPatch { location := none, temperature := none, description := some X } r
          = { r with description := X })
    ∧ (∀ (store : List WeatherRecord) (t : WeatherRecord),
        t ∈ store → ¬ t.id = r.id → t ∈ (update_record store r.id p).2) := by
  refine ⟨⟨rfl, rfl, rfl, rfl, rfl, rfl, rfl⟩, ?_, ?_, ?_, fun X => rfl, ?_⟩
  · intro h
    simp [applyPatch, h]
  · intro h
    simp [applyPatch, h]
  · intro h
    simp [applyPatch, h]
  · intro store t ht hne
    unfold update_record
    by_cases hany : store.any (fun s => s.id == r.id) = true
    · simp only [hany, if_true]
      exact List.mem_map.mpr ⟨t, ht, by simp [hne]⟩
    · simp only [Bool.not_eq_true] at hany
      simp only [hany, Bool.false_eq_true, if_false]
      exact ht

/-- Witness for C4: a description-only patch on a concrete record changes only
the description field. -/
theorem update_record_frame_witness :
    applyPatch { location := none, temperature := none, description := some "X" }
        sampleRecord
      = { sampleRecord with description := "X" } :=
  (update_record_frame sampleRecord
    { location := none, temperature := none, description := some "X" }).2.2.2.2.1 "X"

/-- C6: update and delete on an absent id both answer not-found and leave the
store unchanged; after a successful delete the deleted id is gone from the
store and from the list output, and a repeat delete answers not-found without
touching the store. -/
theorem missing_id_not_found (store : List WeatherRecord) (id : Nat) :
    ((∀ r ∈ store, ¬ r.id = id) →
        (∀ p : UpdatePatch, update_record store id p = (DbOutcome.notFound, store))
        ∧ delete_record store id = (DbOutcome.notFound, store))
    ∧ ((∃ r ∈ store, r.id = id) →
        (delete_record store id).1 = DbOutcome.ok
        ∧ (∀ r ∈ (delete_record store id).2, ¬ r.id = id)
        ∧ delete_record (delete_record store id).2 id
            = (DbOutcome.notFound, (delete_record store id).2)
        ∧ (∀ j ∈ get_records (delete_record store id).2, ¬ j.id = id)) := by
  have hdelNo : ∀ (s : List WeatherRecord),
      s.any (fun r => r.id == id) = false →
      delete_record s id = (DbOutcome.notFound, s) := by
    intro s hs
    unfold delete_record
    rw [hs]
    simp
  have hdelOk : ∀ (s : List WeatherRecord),
      s.any (fun r => r.id == id) = true →
      delete_record s id = (DbOutcome.ok, s.filter fun r => !(r.id == id)) := by
    intro s hs
    unfold delete_record
    rw [hs]
    simp
  constructor
  · intro h
    have hfalse : store.any (fun r => r.id == id) = false := by
      simp only [List.any_eq_false, beq_iff_eq]
      exact h
    refine ⟨fun p => ?_, hdelNo store hfalse⟩
    unfold update_record
    rw [hfalse]
    simp
  · rintro ⟨r, hr, hid⟩
    have htrue : store.any (fun r => r.id == id) = true :=
      List.any_eq_true.mpr ⟨r, hr, beq_iff_eq.mpr hid⟩
    have hstore2 : (delete_record store id).2
        = store.filter fun r => !(r.id == id) := by
      rw [hdelOk store htrue]
    have hmem : ∀ t ∈ (delete_record store id).2, ¬ t.id = id := by
      intro t ht
      rw [hstore2] at ht
      have := (List.mem_filter.mp ht).2
      simpa using this
    have hfalse2 : ((delete_record store id).2).any (fun r => r.id == id) = false := by
      simp only [List.any_eq_false, beq_iff_eq]
      exact hmem
    refine ⟨by rw [hdelOk store htrue], hmem, hdelNo _ hfalse2, ?_⟩
    intro j hj
    rcases List.mem_map.mp hj with ⟨t, ht, hjt⟩
    have htmem : t ∈ (delete_record store id).2 :=
      (List.perm_insertionSort createdDesc _).mem_iff.mp ht
    have : j.id = t.id := by
      rw [← hjt]
      rfl
    rw [this]
    exact hmem t htmem

/-- Witness for C6: on the empty store id 7 is not found by update and delete;
deleting the only record of a singleton store succeeds. -/
theorem missing_id_not_found_witness :
    update_record [] 7 { location := none, temperature := none, description := none }
        = (DbOutcome.notFound, [])
    ∧ delete_record [] 7 = (DbOutcome.notFound, [])
    ∧ (delete_record [sampleRecord] 1).1 = DbOutcome.ok := by
  have h := (missing_id_not_found [] 7).1 (by simp)
  have h2 := (missing_id_not_found [sampleRecord] 1).2
    ⟨sampleRecord, by simp, rfl⟩
  exact ⟨h.1 _, h.2, h2.1⟩

/-- C7 counterexample: on a one-record store the JSON export row does not use
the key set Location, Date, Temperature, Description, Humidity, Wind Speed:
three of its keys carry unit suffixes, and the bare key Temperature does not
occur at all. -/
theorem json_export_keys_cex :
    export_data [sampleRecord] "json" = ExportResult.jsonOut [exportRow sampleRecord]
    ∧ (exportRow sampleRecord).map Prod.fst
        ≠ ["Location", "Date", "Temperature", "Description", "Humidity", "Wind Speed"]
    ∧ "Temperature" ∉ (exportRow sampleRecord).map Prod.fst := by
  refine ⟨rfl, by decide, by decide⟩

/-- C7 amended: the JSON export returns one object per record (the store
ordered by created_at descending), each with the keys Location, Date,
Temperature (°C), Description, Humidity (%), Wind Speed (m/s) in that order,
and the Date value is the record date formatted as YYYY-MM-DD HH:MM:SS. -/
theorem json_export_shape (store : List WeatherRecord) :
    export_data store "json"
      = ExportResult.jsonOut ((orderByCreatedAtDesc store).map exportRow)
    ∧ (∀ r : WeatherRecord, (exportRow r).map Prod.fst
        = ["Location", "Date", "Temperature (°C)", "Description",
           "Humidity (%)", "Wind Speed (m/s)"])
    ∧ (∀ r : WeatherRecord,
        (exportRow r).lookup "Date" = some (JVal.s (strftimeYmdHMS r.date))) :=
  ⟨rfl, fun _ => rfl, fun _ => rfl⟩

/-- C8: every format token other than json, csv and pdf makes export_data
answer 400 with the error message Invalid format, producing no export
output. -/
theorem export_invalid_format (store : List WeatherRecord) (format : String)
    (h1 : ¬ format = "json") (h2 : ¬ format = "csv") (h3 : ¬ format = "pdf") :
    export_data store format = ExportResult.badRequest "Invalid format" := by
  unfold export_data
  rw [if_neg h1, if_neg h2, if_neg h3]

/-- Witness for C8: the format token xml is rejected on the empty store. -/
theorem export_invalid_format_witness :
    export_data [] "xml" = ExportResult.badRequest "Invalid format" :=
  export_invalid_format [] "xml" (by decide) (by decide) (by decide)

/-- C1: on an empty store the PDF export does not produce a header-only
document; it evaluates data[0] on the empty row list, which raises IndexError
and surfaces as an uncaught server error, while the JSON export of the same
empty store succeeds with an empty array. -/
theorem pdf_export_empty_store_crashes :
    export_data [] "pdf" = ExportResult.serverError "list index out of range"
    ∧ export_data [] "json" = ExportResult.jsonOut [] :=
  ⟨rfl, rfl⟩

/-- Helper: the full success path of the weather-lookup handler.  When the
location is non-empty, the geocoder yields non-zero coordinates, and the
current, forecast and places calls all succeed, the response is 200 with the
three payloads and exactly the new record is appended to the store. -/
theorem getWeatherSuccess (cfg : Config) (env : Env) (nextId : Nat)
    (now : DateTime) (ticks : Nat) (store : List WeatherRecord)
    (loc : String) (fd pc : Option Int) (lat lon : ℚ) (cw : CurrentWeather)
    (fc d : String) (ds : List String) (pl : Option (List String))
    (hloc : ¬ loc = "")
    (hgeo : env.geocode loc = some (lat, lon))
    (hlat : ¬ lat = 0) (hlon : ¬ lon = 0)
    (hcur : env.httpCurrent (currentUrl cfg.openWeatherApiKey lat lon)
        = Except.ok cw)
    (hdesc : cw.descriptions = d :: ds)
    (hfc : env.httpForecast (forecastUrl cfg.openWeatherApiKey lat lon)
        = Except.ok fc)
    (hpl : get_google_maps_data cfg.googleMapsApiKey env.httpPlaces lat lon
        (pc.getD 5) = Except.ok pl) :
    get_weather cfg env nextId now ticks store
        { location := some loc, forecastDays := fd, placesCount := pc }
      = (WeatherResponse.ok cw fc pl,
         store ++ [{ id := nextId
                     location := loc
                     latitude := some lat
                     longitude := some lon
                     date := now
                     temperature := cw.temp
                     description := d
                     humidity := cw.humidity
                     wind_speed := cw.wind_speed
                     created_at := ticks }]) := by
  simp [get_weather, get_coordinates, get_weather_data, get_forecast_data,
        hloc, hgeo, hlat, hlon, hcur, hdesc, hfc, hpl]

/-- C3: a weather-lookup that passes validation and geocoding and whose
upstream calls succeed appends exactly one record to the store, whose
location is the request location string and whose temperature, description,
humidity and wind_speed equal main.temp, weather[0].description,
main.humidity and wind.speed of the current-weather response. -/
theorem lookup_inserts_one_record (cfg : Config) (env : Env) (nextId : Nat)
    (now : DateTime) (ticks : Nat) (store : List WeatherRecord)
    (loc : String) (fd pc : Option Int) (lat lon : ℚ) (cw : CurrentWeather)
    (fc d : String) (ds : List String) (pl : Option (List String))
    (hloc : ¬ loc = "")
    (hgeo : env.geocode loc = some (lat, lon))
    (hlat : ¬ lat = 0) (hlon : ¬ lon = 0)
    (hcur : env.httpCurrent (currentUrl cfg.openWeatherApiKey lat lon)
        = Except.ok cw)
    (hdesc : cw.descriptions = d :: ds)
    (hfc : env.httpForecast (forecastUrl cfg.openWeatherApiKey lat lon)
        = Except.ok fc)
    (hpl : get_google_maps_data cfg.googleMapsApiKey env.httpPlaces lat lon
        (pc.getD 5) = Except.ok pl) :
    get_weather cfg env nextId now ticks store
        { location := some loc, forecastDays := fd, placesCount := pc }
      = (WeatherResponse.ok cw fc pl,
         store ++ [{ id := nextId
                     location := loc
                     latitude := some lat
                     longitude := some lon
                     date := now
                     temperature := cw.temp
                     description := d
                     humidity := cw.humidity
                     wind_speed := cw.wind_speed
                     created_at := ticks }]) :=
  getWeatherSuccess cfg env nextId now ticks store loc fd pc lat lon cw fc d ds
    pl hloc hgeo hlat hlon hcur hdesc hfc hpl

/-- Witness for C3: the Paris request of the specification example stores
exactly the record with temperature 18.2, description clear sky, humidity 60
and wind speed 3.1. -/
theorem lookup_inserts_one_record_witness :
    get_weather cfgMaps envParis 1 epoch 42 []
        { location := some "Paris", forecastDays := some 3, placesCount := some 2 }
      = (WeatherResponse.ok
           { temp := 182/10, humidity := 60, descriptions := ["clear sky"],
             wind_speed := 31/10 }
           "forecast-payload" (some ["cafe", "museum"]),
         [{ id := 1
            location := "Paris"
            latitude := some (4885/100)
            longitude := some (235/100)
            date := epoch
            temperature := 182/10
            description := "clear sky"
            humidity := 60
            wind_speed := 31/10
            created_at := 42 }]) :=
  lookup_inserts_one_record cfgMaps envParis 1 epoch 42 []
    "Paris" (some 3) (some 2) (4885/100) (235/100)
    { temp := 182/10, humidity := 60, descriptions := ["clear sky"],
      wind_speed := 31/10 }
    "forecast-payload" "clear sky" [] (some ["cafe", "museum"])
    (by decide) rfl (by norm_num) (by norm_num) rfl rfl rfl rfl

/-- C2: evaluation of the geocode gate at a location the geocoder resolves to
a point with latitude 0.0.  The geocoder returns a match, yet the handler
answers 404 Could not find location and stores nothing, because the source
tests the coordinates for Python truthiness (if not lat or not lon) instead
of comparing them with None. -/
theorem geocode_zero_coordinate_rejected :
    envEquator.geocode "Sao Tome" = some (0, 7)
    ∧ get_weather cfg0 envEquator 1 epoch 0 []
        { location := some "Sao Tome", forecastDays := none, placesCount := none }
      = (WeatherResponse.notFound "Could not find location", []) :=
  ⟨rfl, by decide⟩

/-- C9: with no Google Maps credential configured, get_google_maps_data
returns None for every coordinate pair and every requested count, and a
weather-lookup whose other upstream calls succeed still answers 200 carrying
None under the places key. -/
theorem places_unavailable_without_key (cfg : Config) (env : Env) (nextId : Nat)
    (now : DateTime) (ticks : Nat) (store : List WeatherRecord)
    (loc : String) (fd pc : Option Int) (lat lon : ℚ) (cw : CurrentWeather)
    (fc d : String) (ds : List String)
    (hkey : cfg.googleMapsApiKey = none)
    (hloc : ¬ loc = "")
    (hgeo : env.geocode loc = some (lat, lon))
    (hlat : ¬ lat = 0) (hlon : ¬ lon = 0)
    (hcur : env.httpCurrent (currentUrl cfg.openWeatherApiKey lat lon)
        = Except.ok cw)
    (hdesc : cw.descriptions = d :: ds)
    (hfc : env.httpForecast (forecastUrl cfg.openWeatherApiKey lat lon)
        = Except.ok fc) :
    (∀ (http : String → Except String (Option (List String))) (la lo : ℚ)
        (c : Int),
        get_google_maps_data cfg.googleMapsApiKey http la lo c = Except.ok none)
    ∧ (get_weather cfg env nextId now ticks store
         { location := some loc, forecastDays := fd, placesCount := pc }).1
        = WeatherResponse.ok cw fc none := by
  have hg : ∀ (http : String → Except String (Option (List String)))
      (la lo : ℚ) (c : Int),
      get_google_maps_data cfg.googleMapsApiKey http la lo c = Except.ok none := by
    intro http la lo c
    rw [hkey]
    rfl
  refine ⟨hg, ?_⟩
  rw [getWeatherSuccess cfg env nextId now ticks store loc fd pc lat lon cw fc
      d ds none hloc hgeo hlat hlon hcur hdesc hfc (hg _ _ _ _)]

/-- Witness for C9: the Paris lookup under a configuration with no Google
Maps key answers 200 with places equal to None. -/
theorem places_unavailable_without_key_witness :
    (get_weather cfg0 envParis 1 epoch 0 []
        { location := some "Paris", forecastDays := none, placesCount := none }).1
      = WeatherResponse.ok
          { temp := 182/10, humidity := 60, descriptions := ["clear sky"],
            wind_speed := 31/10 }
          "forecast-payload" none :=
  (places_unavailable_without_key cfg0 envParis 1 epoch 0 [] "Paris" none none
    (4885/100) (235/100)
    { temp := 182/10, humidity := 60, descriptions := ["clear sky"],
      wind_speed := 31/10 }
    "forecast-payload" "clear sky" []
    rfl (by decide) rfl (by norm_num) (by norm_num) rfl rfl rfl).2

/-- C10: the forecast request built by get_forecast_data never mentions its
days argument, so its outcome is the same for any two day counts, and two
weather-lookup requests differing only in forecastDays produce identical
responses and identical stores. -/
theorem forecast_ignores_day_count (http : String → Except String String)
    (key : String) (lat lon : ℚ) (d1 d2 : Int) :
    get_forecast_data http key lat lon d1 = http (forecastUrl key lat lon)
    ∧ get_forecast_data http key lat lon d1 = get_forecast_data http key lat lon d2
    ∧ ∀ (cfg : Config) (env : Env) (nextId : Nat) (now : DateTime) (ticks : Nat)
        (store : List WeatherRecord) (loc : Option String) (pc : Option Int),
        get_weather cfg env nextId now ticks store
          { location := loc, forecastDays := some d1, placesCount := pc }
        = get_weather cfg env nextId now ticks store
          { location := loc, forecastDays := some d2, placesCount := pc } := by
  refine ⟨rfl, rfl, fun cfg env nextId now ticks store loc pc => ?_⟩
  rfl

end WeatherApp
